import Mathlib

/-!
Shallow embedding of src/data_generator.py (class DataGenerator) from the
clickhouse-data-filler repository, together with proofs about its
behaviour.

Modelling conventions:
* The random source random.Random(seed) is modelled as a tape of natural
  numbers with a cursor; each primitive draw consumes one cell.  A fixed
  seed determines the whole tape, so "identical seed" is modelled as
  "identical tape".
* Timestamps (Python datetime values) are whole seconds since an epoch
  falling on a midnight; calendar dates are whole days since the same
  epoch, so datetime.date() is floor division of the timestamp by 86400.
  datetime.now() is passed in explicitly as the parameter now.
* Python floats are modelled as rationals.
* Fallible operations (random.choice on an empty sequence, randint on an
  empty range) return Except.error, modelling the Python exception, and
  exceptions propagate through exBind.
-/

structure RandState where
  tape : Nat → Nat
  pos : Nat

def RandState.head (s : RandState) : Nat := s.tape s.pos

def RandState.advance (s : RandState) : RandState := ⟨s.tape, s.pos + 1⟩

/-- Exception propagation: run the continuation on success, keep the
error otherwise. -/
def exBind {α β : Type} (e : Except String α) (f : α → Except String β) :
    Except String β :=
  match e with
  | .error msg => .error msg
  | .ok a => f a

/-- Model of random.Random.randint(lo, hi): uniform integer in [lo, hi];
raises ValueError when hi < lo. -/
def randint (lo hi : Int) (s : RandState) : Except String (Int × RandState) :=
  if hi < lo then .error "empty range for randrange"
  else .ok (lo + ((s.head % (hi - lo + 1).toNat : Nat) : Int), s.advance)

/-- Model of random.Random.uniform(a, b): a float in [a, b]; consumes one
draw and never fails. -/
def uniformQ (a b : ℚ) (s : RandState) : ℚ × RandState :=
  (a + (b - a) * ((s.head % 1000 : Nat) : ℚ) / 999, s.advance)

/-- Model of random.Random.choice(seq): uniform element of the sequence;
raises IndexError when the sequence is empty. -/
def choice {α : Type} (l : List α) (s : RandState) : Except String (α × RandState) :=
  match l with
  | [] => .error "Cannot choose from an empty sequence"
  | a :: rest => .ok ((a :: rest).getD (s.head % (a :: rest).length) a, s.advance)

/-- Python values that the generator produces or that appear in hints. -/
inductive Value where
  | int : Int → Value
  | float : ℚ → Value
  | str : String → Value
  | bool : Bool → Value
  | date : Int → Value
  | datetime : Int → Value
  | null : Value
deriving DecidableEq, Repr

def Value.toQ? : Value → Option ℚ
  | .int n => some (n : ℚ)
  | .float q => some q
  | _ => none

def Value.toInt? : Value → Option Int
  | .int n => some n
  | _ => none

/-- Shapes a hint value can take.  A dict holding both a 'start' and an
'end' key is modelled by rangeDict carrying the two timestamps that
datetime.fromisoformat returns for its well-formed ISO-8601 strings
(whole seconds); a dict missing one of those keys is dictOther; every
remaining non-list shape is scalar. -/
inductive Hint where
  | list : List Value → Hint
  | rangeDict : Int → Int → Hint
  | dictOther : Hint
  | scalar : Value → Hint
deriving DecidableEq, Repr

def Hint.isList : Hint → Bool
  | .list _ => true
  | _ => false

def Hint.isRangeDict : Hint → Bool
  | .rangeDict _ _ => true
  | _ => false

def Hint.listLen : Hint → Nat
  | .list l => l.length
  | _ => 0

def Hint.getList : Hint → List Value
  | .list l => l
  | _ => []

def Hint.rangeStart : Hint → Int
  | .rangeDict a _ => a
  | _ => 0

def Hint.rangeEnd : Hint → Int
  | .rangeDict _ b => b
  | _ => 0

/-- Guard of the first hint branch (isinstance(hint, list), line 90). -/
def hintGuard1 (h : Hint) : Bool := h.isList

/-- Guard of the second hint branch (isinstance(hint, dict) with both a
'start' and an 'end' key, line 92). -/
def hintGuard2 (h : Hint) : Bool := h.isRangeDict

/-- Guard of the third hint branch (isinstance(hint, list) and
len(hint) == 2, line 98). -/
def hintGuard3 (h : Hint) : Bool := h.isList && (h.listLen == 2)

/-- Model of col_type.split('(')[0]: the prefix before the first '('. -/
def baseType (t : String) : String := ⟨t.data.takeWhile (fun c => c != '(')⟩

/-- Model of the Python substring test «'Float' in col_type». -/
def containsFloat (t : String) : Bool := (t.splitOn "Float").length != 1

/-- Characters of string.ascii_letters. -/
def asciiLetters : List Char :=
  "abcdefghijklmnopqrstuvwxyzABCDEFGHIJKLMNOPQRSTUVWXYZ".data

/-- Characters of string.digits. -/
def digitChars : List Char := "0123456789".data

/-- Alphabet string.ascii_letters + string.digits used by _generate_string. -/
def alphanumChars : List Char := asciiLetters ++ digitChars

/-- Sequential character draws of _generate_string's join comprehension. -/
def genChars : Nat → RandState → Except String (List Char × RandState)
  | 0, s => .ok ([], s)
  | n + 1, s =>
    exBind (choice alphanumChars s) (fun c =>
      exBind (genChars n c.2) (fun cs => .ok (c.1 :: cs.1, cs.2)))

/-- Model of _generate_string with its default length bounds 5 and 15. -/
def generateString (s : RandState) : Except String (String × RandState) :=
  exBind (randint 5 15 s) (fun len =>
    exBind (genChars len.1.toNat len.2) (fun cs => .ok (⟨cs.1⟩, cs.2)))

/-- Model of _generate_date: start_date = now - 365 days; the result is
(start_date + timedelta(days = randint(0, 365))).date(), i.e. the floor
day of the timestamp now - 31536000 + k * 86400. -/
def dateGen (now : Int) (s : RandState) : Except String (Value × RandState) :=
  exBind (randint 0 365 s) (fun k =>
    .ok (Value.date ((now - 31536000 + k.1 * 86400).fdiv 86400), k.2))

/-- Model of _generate_datetime: delta_seconds =
int((now - (now - 365 days)).total_seconds()) = 31536000 and the result is
start_date + timedelta(seconds = randint(0, delta_seconds)). -/
def datetimeGen (now : Int) (s : RandState) : Except String (Value × RandState) :=
  exBind (randint 0 31536000 s) (fun k =>
    .ok (Value.datetime (now - 31536000 + k.1), k.2))

/-- Generator lambda for UInt8 (line 40). -/
def uint8Gen (_ : Int) (s : RandState) : Except String (Value × RandState) :=
  exBind (randint 0 255 s) (fun p => .ok (Value.int p.1, p.2))

/-- Generator lambda for UInt16 (line 41). -/
def uint16Gen (_ : Int) (s : RandState) : Except String (Value × RandState) :=
  exBind (randint 0 65535 s) (fun p => .ok (Value.int p.1, p.2))

/-- Generator lambda for UInt32 (line 42). -/
def uint32Gen (_ : Int) (s : RandState) : Except String (Value × RandState) :=
  exBind (randint 0 4294967295 s) (fun p => .ok (Value.int p.1, p.2))

/-- Generator lambda for UInt64 (line 43). -/
def uint64Gen (_ : Int) (s : RandState) : Except String (Value × RandState) :=
  exBind (randint 0 18446744073709551615 s) (fun p => .ok (Value.int p.1, p.2))

/-- Generator lambda for Int8 (line 44). -/
def int8Gen (_ : Int) (s : RandState) : Except String (Value × RandState) :=
  exBind (randint (-128) 127 s) (fun p => .ok (Value.int p.1, p.2))

/-- Generator lambda for Int16 (line 45). -/
def int16Gen (_ : Int) (s : RandState) : Except String (Value × RandState) :=
  exBind (randint (-32768) 32767 s) (fun p => .ok (Value.int p.1, p.2))

/-- Generator lambda for Int32 (line 46). -/
def int32Gen (_ : Int) (s : RandState) : Except String (Value × RandState) :=
  exBind (randint (-2147483648) 2147483647 s) (fun p => .ok (Value.int p.1, p.2))

/-- Generator lambda for Int64 (line 47). -/
def int64Gen (_ : Int) (s : RandState) : Except String (Value × RandState) :=
  exBind (randint (-9223372036854775808) 9223372036854775807 s)
    (fun p => .ok (Value.int p.1, p.2))

/-- Generator lambda for Float32: uniform(-1e3, 1e3) (line 48). -/
def float32Gen (_ : Int) (s : RandState) : Except String (Value × RandState) :=
  .ok (Value.float (uniformQ (-1000) 1000 s).1, (uniformQ (-1000) 1000 s).2)

/-- Generator lambda for Float64: uniform(-1e6, 1e6) (line 49). -/
def float64Gen (_ : Int) (s : RandState) : Except String (Value × RandState) :=
  .ok (Value.float (uniformQ (-1000000) 1000000 s).1, (uniformQ (-1000000) 1000000 s).2)

/-- Generator entry for String: _generate_string (line 50). -/
def stringGen (_ : Int) (s : RandState) : Except String (Value × RandState) :=
  exBind (generateString s) (fun p => .ok (Value.str p.1, p.2))

/-- Generator lambda for Bool: rng.choice([True, False]) (line 54). -/
def boolGen (_ : Int) (s : RandState) : Except String (Value × RandState) :=
  exBind (choice [true, false] s) (fun p => .ok (Value.bool p.1, p.2))

/-- Entries of the type_generators dict built by _setup_type_generators,
in source order.  Each generator receives the wall clock (datetime.now(),
in seconds) and the random state. -/
def typeGeneratorsList : List (String × (Int → RandState → Except String (Value × RandState))) :=
  [("UInt8", uint8Gen), ("UInt16", uint16Gen), ("UInt32", uint32Gen),
   ("UInt64", uint64Gen), ("Int8", int8Gen), ("Int16", int16Gen),
   ("Int32", int32Gen), ("Int64", int64Gen), ("Float32", float32Gen),
   ("Float64", float64Gen), ("String", stringGen), ("Date", dateGen),
   ("DateTime", datetimeGen), ("DateTime64", datetimeGen), ("Bool", boolGen)]

/-- Model of self.type_generators.get(base_type). -/
def typeGenerators (b : String) :
    Option (Int → RandState → Except String (Value × RandState)) :=
  typeGeneratorsList.lookup b

/-- Warning text logged for an unknown column type (line 126). -/
def unknownTypeWarning (colType : String) : String :=
  "Unknown column type " ++ colType ++ ". Returning NULL."

/-- Warning text logged for an unrecognized hint shape (line 104). -/
def unrecHintWarning (colName : String) : String :=
  "Unrecognized hint format for " ++ colName ++ ". Generating by type."

/-- Model of _generate_by_type (lines 110-127): strip the parametric
suffix, look the base type up in the registry, and fall back to NULL plus
a warning when the lookup fails. -/
def generateByType (colType : String) (now : Int) (s : RandState) :
    Except String (Value × List String × RandState) :=
  match typeGenerators (baseType colType) with
  | some g => exBind (g now s) (fun p => .ok (p.1, ([] : List String), p.2))
  | none => .ok (Value.null, [unknownTypeWarning colType], s)

/-- Hint resolution cascade of generate_row (lines 90-105), guards kept in
source order; the third branch is the numeric-range branch exactly as it
appears in the source. -/
def resolveHint (colName colType : String) (hint : Hint) (now : Int) (s : RandState) :
    Except String (Value × List String × RandState) :=
  if hintGuard1 hint then
    exBind (choice hint.getList s) (fun p => .ok (p.1, ([] : List String), p.2))
  else if hintGuard2 hint then
    exBind (randint 0 (hint.rangeEnd - hint.rangeStart) s) (fun o =>
      .ok ((if colType = "Date" then Value.date ((hint.rangeStart + o.1).fdiv 86400)
            else Value.datetime (hint.rangeStart + o.1)), [], o.2))
  else if hintGuard3 hint then
    if containsFloat colType then
      match (hint.getList.getD 0 Value.null).toQ?, (hint.getList.getD 1 Value.null).toQ? with
      | some a, some b => .ok (Value.float (uniformQ a b s).1, [], (uniformQ a b s).2)
      | _, _ => .error "TypeError"
    else
      match (hint.getList.getD 0 Value.null).toInt?,
          (hint.getList.getD 1 Value.null).toInt? with
      | some a, some b =>
        exBind (randint a b s) (fun p => .ok (Value.int p.1, ([] : List String), p.2))
      | _, _ => .error "TypeError"
  else
    exBind (generateByType colType now s)
      (fun p => .ok (p.1, unrecHintWarning colName :: p.2.1, p.2.2))

/-- One schema entry: a column name together with its declared type. -/
structure ColumnSpec where
  name : String
  type : String
deriving DecidableEq, Repr

/-- Python dict item assignment row[k] = v: replace in place when the key
is present, append otherwise. -/
def dictInsert (row : List (String × Value)) (k : String) (v : Value) :
    List (String × Value) :=
  match row with
  | [] => [(k, v)]
  | (k0, v0) :: rest =>
    if k0 = k then (k, v) :: rest else (k0, v0) :: dictInsert rest k v

/-- Value for one column: hint membership test, then hint resolution or
type-based generation (lines 88-107). -/
def columnValue (hints : List (String × Hint)) (col : ColumnSpec) (now : Int)
    (s : RandState) : Except String (Value × List String × RandState) :=
  match hints.lookup col.name with
  | some hint => resolveHint col.name col.type hint now s
  | none => generateByType col.type now s

/-- Loop of generate_row over the remaining schema, carrying the row and
the warning log accumulated so far. -/
def generateRowAux (hints : List (String × Hint)) (now : Int) :
    List ColumnSpec → List (String × Value) → List String → RandState →
    Except String (List (String × Value) × List String × RandState)
  | [], acc, warns, s => .ok (acc, warns, s)
  | col :: rest, acc, warns, s =>
    exBind (columnValue hints col now s) (fun r =>
      generateRowAux hints now rest (dictInsert acc col.name r.1) (warns ++ r.2.1) r.2.2)

/-- Model of generate_row (lines 74-108): one generated row together with
the warnings logged while producing it and the advanced random state. -/
def generateRow (schema : List ColumnSpec) (hints : List (String × Hint))
    (now : Int) (s : RandState) :
    Except String (List (String × Value) × List String × RandState) :=
  generateRowAux hints now schema [] [] s

/-- Row payload of a generate_row outcome, none when the call raised. -/
def rowOf (r : Except String (List (String × Value) × List String × RandState)) :
    Option (List (String × Value)) :=
  match r with
  | .ok (row, _, _) => some row
  | .error _ => none

/-- Successive generate_row calls on one generator; nows i is the wall
clock observed by the i-th call. -/
def generateRows (schema : List ColumnSpec) (hints : List (String × Hint)) :
    (Nat → Int) → Nat → RandState →
    Except String (List (List (String × Value)) × RandState)
  | _, 0, s => .ok ([], s)
  | nows, n + 1, s =>
    exBind (generateRow schema hints (nows 0) s) (fun r =>
      exBind (generateRows schema hints (fun i => nows (i + 1)) n r.2.2) (fun rs =>
        .ok (r.1 :: rs.1, rs.2)))

/-- Base types whose registered generators read the wall clock. -/
def dateLikeTypes : List String := ["Date", "DateTime", "DateTime64"]

/-! Basic lemmas about the random primitives. -/

theorem exBind_ok {α β : Type} (a : α) (f : α → Except String β) :
    exBind (.ok a) f = f a := rfl

theorem randint_eq (lo hi : Int) (s : RandState) (h : lo ≤ hi) :
    randint lo hi s =
      .ok (lo + ((s.head % (hi - lo + 1).toNat : Nat) : Int), s.advance) := by
  unfold randint
  rw [if_neg (not_lt.mpr h)]

theorem randint_bounds {lo hi : Int} {s : RandState} {o : Int} {s2 : RandState}
    (h : randint lo hi s = .ok (o, s2)) : lo ≤ o ∧ o ≤ hi ∧ s2 = s.advance := by
  unfold randint at h
  by_cases hlt : hi < lo
  · rw [if_pos hlt] at h
    cases h
  · rw [if_neg hlt] at h
    simp only [Except.ok.injEq, Prod.mk.injEq] at h
    obtain ⟨ho, hs⟩ := h
    have hm : (((hi - lo + 1).toNat : Nat) : Int) = hi - lo + 1 :=
      Int.toNat_of_nonneg (by omega)
    have hmod : s.head % (hi - lo + 1).toNat < (hi - lo + 1).toNat :=
      Nat.mod_lt _ (by omega)
    have hcast : ((s.head % (hi - lo + 1).toNat : Nat) : Int) <
        (((hi - lo + 1).toNat : Nat) : Int) := by exact_mod_cast hmod
    have hnn : (0 : Int) ≤ ((s.head % (hi - lo + 1).toNat : Nat) : Int) :=
      Int.ofNat_nonneg _
    exact ⟨by omega, by omega, hs.symm⟩

theorem getD_mem {α : Type} (l : List α) (n : Nat) (d : α) (hd : d ∈ l) :
    l.getD n d ∈ l := by
  rw [List.getD_eq_getElem?_getD]
  by_cases h : n < l.length
  · rw [List.getElem?_eq_getElem h]
    simp only [Option.getD_some]
    exact List.getElem_mem h
  · rw [List.getElem?_eq_none (le_of_not_lt h)]
    exact hd

theorem choice_cons {α : Type} (a : α) (l : List α) (s : RandState) :
    choice (a :: l) s =
      .ok ((a :: l).getD (s.head % (a :: l).length) a, s.advance) := rfl

theorem choice_mem {α : Type} {l : List α} {s : RandState} {v : α} {s2 : RandState}
    (h : choice l s = .ok (v, s2)) : v ∈ l ∧ s2 = s.advance := by
  cases l with
  | nil => cases h
  | cons a rest =>
    rw [choice_cons] at h
    simp only [Except.ok.injEq, Prod.mk.injEq] at h
    obtain ⟨hv, hs⟩ := h
    exact ⟨hv ▸ getD_mem _ _ _ (List.mem_cons_self a rest), hs.symm⟩

theorem genChars_ok : ∀ (n : Nat) (s : RandState), ∃ cs s2, genChars n s = .ok (cs, s2)
  | 0, s => ⟨[], s, rfl⟩
  | n + 1, s => by
    obtain ⟨c, s1, hc⟩ : ∃ c s1, choice alphanumChars s = .ok (c, s1) := ⟨_, _, rfl⟩
    obtain ⟨cs, s2, hcs⟩ := genChars_ok n s1
    refine ⟨c :: cs, s2, ?_⟩
    show exBind (choice alphanumChars s) (fun c =>
      exBind (genChars n c.2) (fun cs => .ok (c.1 :: cs.1, cs.2))) = _
    rw [hc, exBind_ok]
    rw [hcs, exBind_ok]

theorem generateString_ok (s : RandState) :
    ∃ str s2, generateString s = .ok (str, s2) := by
  obtain ⟨cs, s2, hcs⟩ :=
    genChars_ok (5 + ((s.head % ((15 : Int) - 5 + 1).toNat : Nat) : Int)).toNat s.advance
  refine ⟨⟨cs⟩, s2, ?_⟩
  unfold generateString
  rw [randint_eq 5 15 s (by norm_num), exBind_ok]
  rw [hcs, exBind_ok]

theorem lookup_pair_mem {β : Type} {l : List (String × β)} {b : String} {g : β}
    (hg : l.lookup b = some g) : (b, g) ∈ l := by
  obtain ⟨l1, l2, rfl, -⟩ := List.lookup_eq_some_iff.mp hg
  exact List.mem_append_right _ (List.mem_cons_self _ _)

theorem typeGen_total (b : String)
    (g : Int → RandState → Except String (Value × RandState))
    (hg : typeGenerators b = some g) (now : Int) (s : RandState) :
    ∃ v s2, g now s = .ok (v, s2) := by
  have hm : (b, g) ∈ typeGeneratorsList := lookup_pair_mem hg
  simp only [typeGeneratorsList, Prod.mk.injEq, List.mem_cons,
    List.not_mem_nil, or_false] at hm
  obtain hm | hm | hm | hm | hm | hm | hm | hm | hm | hm | hm | hm | hm | hm | hm := hm
  · obtain ⟨-, rfl⟩ := hm
    unfold uint8Gen
    rw [randint_eq 0 255 s (by norm_num), exBind_ok]; exact ⟨_, _, rfl⟩
  · obtain ⟨-, rfl⟩ := hm
    unfold uint16Gen
    rw [randint_eq 0 65535 s (by norm_num), exBind_ok]; exact ⟨_, _, rfl⟩
  · obtain ⟨-, rfl⟩ := hm
    unfold uint32Gen
    rw [randint_eq 0 4294967295 s (by norm_num), exBind_ok]; exact ⟨_, _, rfl⟩
  · obtain ⟨-, rfl⟩ := hm
    unfold uint64Gen
    rw [randint_eq 0 18446744073709551615 s (by norm_num), exBind_ok]
    exact ⟨_, _, rfl⟩
  · obtain ⟨-, rfl⟩ := hm
    unfold int8Gen
    rw [randint_eq (-128) 127 s (by norm_num), exBind_ok]; exact ⟨_, _, rfl⟩
  · obtain ⟨-, rfl⟩ := hm
    unfold int16Gen
    rw [randint_eq (-32768) 32767 s (by norm_num), exBind_ok]; exact ⟨_, _, rfl⟩
  · obtain ⟨-, rfl⟩ := hm
    unfold int32Gen
    rw [randint_eq (-2147483648) 2147483647 s (by norm_num), exBind_ok]
    exact ⟨_, _, rfl⟩
  · obtain ⟨-, rfl⟩ := hm
    unfold int64Gen
    rw [randint_eq (-9223372036854775808) 9223372036854775807 s (by norm_num), exBind_ok]
    exact ⟨_, _, rfl⟩
  · obtain ⟨-, rfl⟩ := hm
    exact ⟨_, _, rfl⟩
  · obtain ⟨-, rfl⟩ := hm
    exact ⟨_, _, rfl⟩
  · obtain ⟨-, rfl⟩ := hm
    unfold stringGen
    obtain ⟨str, s2, h⟩ := generateString_ok s
    rw [h, exBind_ok]
    exact ⟨_, _, rfl⟩
  · obtain ⟨-, rfl⟩ := hm
    unfold dateGen
    rw [randint_eq 0 365 s (by norm_num), exBind_ok]
    exact ⟨_, _, rfl⟩
  · obtain ⟨-, rfl⟩ := hm
    unfold datetimeGen
    rw [randint_eq 0 31536000 s (by norm_num), exBind_ok]
    exact ⟨_, _, rfl⟩
  · obtain ⟨-, rfl⟩ := hm
    unfold datetimeGen
    rw [randint_eq 0 31536000 s (by norm_num), exBind_ok]
    exact ⟨_, _, rfl⟩
  · obtain ⟨-, rfl⟩ := hm
    unfold boolGen
    rw [choice_cons, exBind_ok]
    exact ⟨_, _, rfl⟩

theorem generateByType_some {colType : String}
    {g : Int → RandState → Except String (Value × RandState)}
    (hg : typeGenerators (baseType colType) = some g) (now : Int) (s : RandState) :
    generateByType colType now s =
      exBind (g now s) (fun p => .ok (p.1, ([] : List String), p.2)) := by
  unfold generateByType
  rw [hg]

theorem generateByType_none {colType : String}
    (hg : typeGenerators (baseType colType) = none) (now : Int) (s : RandState) :
    generateByType colType now s = .ok (Value.null, [unknownTypeWarning colType], s) := by
  unfold generateByType
  rw [hg]

theorem byType_total (colType : String) (now : Int) (s : RandState) :
    ∃ v w s2, generateByType colType now s = .ok (v, w, s2) := by
  cases hg : typeGenerators (baseType colType) with
  | none => exact ⟨Value.null, _, s, generateByType_none hg now s⟩
  | some g =>
    obtain ⟨v, s2, h⟩ := typeGen_total _ g hg now s
    rw [generateByType_some hg now s, h, exBind_ok]
    exact ⟨v, [], s2, rfl⟩

/-! Claim C10: list hints always go through the enumeration branch. -/

/-- C10: every list-shaped hint — whatever its length or element types,
including a two-element numeric pair — is resolved by the first branch
through rng.choice, so the generated value is always a member of the
list; and the numeric-range branch is unreachable: its guard requires
isinstance(hint, list), which the first guard has already captured. -/
theorem list_hint_always_choice :
    (∀ (colName colType : String) (l : List Value) (now : Int) (s : RandState),
        resolveHint colName colType (Hint.list l) now s =
          exBind (choice l s) (fun p => .ok (p.1, ([] : List String), p.2))) ∧
    (∀ (colName colType : String) (l : List Value) (now : Int) (s : RandState)
        (v : Value) (w : List String) (s2 : RandState),
        resolveHint colName colType (Hint.list l) now s = .ok (v, w, s2) → v ∈ l) ∧
    (∀ hint : Hint, hintGuard1 hint = false → hintGuard3 hint = false) := by
  refine ⟨fun colName colType l now s => rfl, ?_, ?_⟩
  · intro colName colType l now s v w s2 h
    have heq : resolveHint colName colType (Hint.list l) now s =
        exBind (choice l s) (fun p => .ok (p.1, ([] : List String), p.2)) := rfl
    rw [heq] at h
    cases hc : choice l s with
    | error e => rw [hc] at h; cases h
    | ok p =>
      obtain ⟨pv, ps⟩ := p
      rw [hc, exBind_ok] at h
      simp only [Except.ok.injEq, Prod.mk.injEq] at h
      obtain ⟨hv, -, -⟩ := h
      obtain ⟨hm, -⟩ := choice_mem hc
      exact hv ▸ hm
  · intro hint h1
    unfold hintGuard3
    unfold hintGuard1 at h1
    rw [h1]
    rfl

/-- Witness for C10 at the concrete two-element numeric pair [18, 30]. -/
theorem list_hint_always_choice_witness :
    Value.int 18 ∈ [Value.int 18, Value.int 30] :=
  list_hint_always_choice.2.1 "age" "Int32" [Value.int 18, Value.int 30] 0
    ⟨fun _ => 0, 0⟩ (Value.int 18) [] ⟨fun _ => 0, 1⟩ rfl

/-! Claim C1: what the code actually does on a numeric bound pair. -/

/-- C1 (behaviour at the failing input): with the numeric bound pair
[18, 30] on an Int32 column the enumeration branch captures the hint, so
generate_row only ever returns one of the two endpoints; an interior
integer such as 25 is impossible for every random state, contradicting
uniform integer generation over the whole of [18, 30]. -/
theorem numeric_pair_only_endpoints (now : Int) (s : RandState)
    (row : List (String × Value)) (w : List String) (s2 : RandState)
    (h : generateRow [⟨"age", "Int32"⟩]
        [("age", Hint.list [Value.int 18, Value.int 30])] now s = .ok (row, w, s2)) :
    row = [("age", Value.int 18)] ∨ row = [("age", Value.int 30)] := by
  have heq : generateRow [⟨"age", "Int32"⟩]
      [("age", Hint.list [Value.int 18, Value.int 30])] now s =
      .ok ([("age", [Value.int 18, Value.int 30].getD (s.head % 2) (Value.int 18))],
        [], s.advance) := rfl
  rw [heq] at h
  simp only [Except.ok.injEq, Prod.mk.injEq] at h
  obtain ⟨hrow, -, -⟩ := h
  rcases Nat.mod_two_eq_zero_or_one s.head with hm | hm <;> rw [hm] at hrow
  · exact Or.inl hrow.symm
  · exact Or.inr hrow.symm

/-- Witness for the endpoint theorem at the zero tape. -/
theorem numeric_pair_only_endpoints_witness :
    ([("age", Value.int 18)] : List (String × Value)) = [("age", Value.int 18)] ∨
      ([("age", Value.int 18)] : List (String × Value)) = [("age", Value.int 30)] :=
  numeric_pair_only_endpoints 0 ⟨fun _ => 0, 0⟩ [("age", Value.int 18)] []
    ⟨fun _ => 0, 1⟩ rfl

/-! Claim C2: fallback behaviour on unrecognized hint shapes. -/

/-- C2 (amended): a hint whose shape is not recognized — not a list and
not a dict holding both a 'start' and an 'end' key — never raises: the
call completes, falls back to type-based generation for that column and
prepends the unrecognized-hint warning.  (The original claim fails for
the empty list, which is list-shaped and raises; see the
counterexample.) -/
theorem unrecognized_hint_falls_back (colName colType : String) (hint : Hint)
    (now : Int) (s : RandState)
    (h1 : hintGuard1 hint = false) (h2 : hintGuard2 hint = false) :
    ∃ v w s2, generateByType colType now s = .ok (v, w, s2) ∧
      generateRow [⟨colName, colType⟩] [(colName, hint)] now s =
        .ok ([(colName, v)], unrecHintWarning colName :: w, s2) := by
  obtain ⟨v, w, s2, hbt⟩ := byType_total colType now s
  have h3 : hintGuard3 hint = false := by
    unfold hintGuard3
    unfold hintGuard1 at h1
    rw [h1]
    rfl
  refine ⟨v, w, s2, hbt, ?_⟩
  have hres : resolveHint colName colType hint now s =
      exBind (generateByType colType now s)
        (fun p => .ok (p.1, unrecHintWarning colName :: p.2.1, p.2.2)) := by
    unfold resolveHint
    simp only [h1, h2, h3, Bool.false_eq_true, if_false]
  have hcv : columnValue [(colName, hint)] ⟨colName, colType⟩ now s =
      resolveHint colName colType hint now s := by
    unfold columnValue
    rw [List.lookup_cons_self]
  have hstep : generateRow [⟨colName, colType⟩] [(colName, hint)] now s =
      exBind (columnValue [(colName, hint)] ⟨colName, colType⟩ now s) (fun r =>
        generateRowAux [(colName, hint)] now [] (dictInsert [] colName r.1)
          ([] ++ r.2.1) r.2.2) := rfl
  rw [hstep, hcv, hres, hbt]
  simp only [exBind_ok]
  rfl

/-- Witness for the fallback theorem at a concrete scalar hint. -/
theorem unrecognized_hint_falls_back_witness :
    ∃ v w s2, generateByType "Int32" 0 ⟨fun _ => 0, 0⟩ = .ok (v, w, s2) ∧
      generateRow [⟨"x", "Int32"⟩] [("x", Hint.scalar (Value.int 7))] 0 ⟨fun _ => 0, 0⟩ =
        .ok ([("x", v)], unrecHintWarning "x" :: w, s2) :=
  unrecognized_hint_falls_back "x" "Int32" (Hint.scalar (Value.int 7)) 0
    ⟨fun _ => 0, 0⟩ rfl rfl

/-- C2 counterexample: the empty-list hint is list-shaped, so it is taken
by the enumeration branch and raises IndexError (choice from an empty
sequence) instead of warning and falling back to type-based generation. -/
theorem empty_list_hint_raises :
    generateRow [⟨"x", "Int32"⟩] [("x", Hint.list [])] 0 ⟨fun _ => 0, 0⟩ =
      .error "Cannot choose from an empty sequence" := rfl

/-! Claim C7: unknown base types yield NULL with exactly one warning. -/

/-- C7: a column whose base type has no registered generator and no hint
yields NULL, logs exactly one warning for it, and does not raise; stated
both for _generate_by_type itself and through generate_row on a schema
made of such a column. -/
theorem unknown_type_null_one_warning (colName colType : String)
    (hints : List (String × Hint)) (now : Int) (s : RandState)
    (hg : typeGenerators (baseType colType) = none)
    (hh : hints.lookup colName = none) :
    generateByType colType now s = .ok (Value.null, [unknownTypeWarning colType], s) ∧
    generateRow [⟨colName, colType⟩] hints now s =
      .ok ([(colName, Value.null)], [unknownTypeWarning colType], s) := by
  have h1 := generateByType_none hg now s
  refine ⟨h1, ?_⟩
  have hcv : columnValue hints ⟨colName, colType⟩ now s =
      generateByType colType now s := by
    unfold columnValue
    rw [hh]
  have hstep : generateRow [⟨colName, colType⟩] hints now s =
      exBind (columnValue hints ⟨colName, colType⟩ now s) (fun r =>
        generateRowAux hints now [] (dictInsert [] colName r.1) ([] ++ r.2.1) r.2.2) := rfl
  rw [hstep, hcv, h1]
  simp only [exBind_ok]
  rfl

/-- Witness for the unknown-type theorem at the type Weird42 of the spec's
example. -/
theorem unknown_type_null_one_warning_witness :
    generateByType "Weird42" 0 ⟨fun _ => 0, 0⟩ =
      .ok (Value.null, [unknownTypeWarning "Weird42"], ⟨fun _ => 0, 0⟩) ∧
    generateRow [⟨"x", "Weird42"⟩] [] 0 ⟨fun _ => 0, 0⟩ =
      .ok ([("x", Value.null)], [unknownTypeWarning "Weird42"], ⟨fun _ => 0, 0⟩) :=
  unknown_type_null_one_warning "x" "Weird42" [] 0 ⟨fun _ => 0, 0⟩ rfl rfl

/-! Claim C6: row keys are the schema's column names in order. -/

theorem dictInsert_not_mem (row : List (String × Value)) (k : String) (v : Value)
    (hk : k ∉ row.map Prod.fst) : dictInsert row k v = row ++ [(k, v)] := by
  induction row with
  | nil => rfl
  | cons p rest ih =>
    obtain ⟨k0, v0⟩ := p
    simp only [List.map_cons, List.mem_cons] at hk
    push_neg at hk
    obtain ⟨hne, hrest⟩ := hk
    unfold dictInsert
    rw [if_neg (show ¬(k0 = k) from fun hc => hne hc.symm), ih hrest]
    rfl

theorem generateRowAux_keys (hints : List (String × Hint)) (now : Int) :
    ∀ (schema : List ColumnSpec) (acc : List (String × Value)) (warns : List String)
      (s : RandState) (row : List (String × Value)) (w : List String) (s2 : RandState),
      (acc.map Prod.fst ++ schema.map ColumnSpec.name).Nodup →
      generateRowAux hints now schema acc warns s = .ok (row, w, s2) →
      row.map Prod.fst = acc.map Prod.fst ++ schema.map ColumnSpec.name
  | [], acc, warns, s, row, w, s2, hnd, h => by
    simp only [generateRowAux, Except.ok.injEq, Prod.mk.injEq] at h
    obtain ⟨hrow, -, -⟩ := h
    rw [← hrow]
    simp
  | col :: rest, acc, warns, s, row, w, s2, hnd, h => by
    cases hcv : columnValue hints col now s with
    | error e =>
      have hne : generateRowAux hints now (col :: rest) acc warns s = .error e := by
        show exBind (columnValue hints col now s) _ = _
        rw [hcv]
        rfl
      rw [hne] at h
      cases h
    | ok r =>
      have hstep : generateRowAux hints now (col :: rest) acc warns s =
          generateRowAux hints now rest (dictInsert acc col.name r.1)
            (warns ++ r.2.1) r.2.2 := by
        show exBind (columnValue hints col now s) _ = _
        rw [hcv, exBind_ok]
      rw [hstep] at h
      rw [List.map_cons] at hnd
      have hsplit := List.nodup_append.mp hnd
      have hnotmem : col.name ∉ acc.map Prod.fst :=
        fun hmem => hsplit.2.2 hmem (List.mem_cons_self _ _)
      have hins : dictInsert acc col.name r.1 = acc ++ [(col.name, r.1)] :=
        dictInsert_not_mem _ _ _ hnotmem
      have hnd2 : ((dictInsert acc col.name r.1).map Prod.fst ++
          rest.map ColumnSpec.name).Nodup := by
        rw [hins]
        simpa [List.append_assoc] using hnd
      have hrec := generateRowAux_keys hints now rest _ _ _ _ _ _ hnd2 h
      rw [hrec, hins]
      simp [List.append_assoc]

/-- C6: whenever generate_row returns a row, its keys are exactly the
schema's column names, in schema order, one entry per ColumnSpec (names
unique within the schema, as the data model requires); with the empty
schema this specializes to the empty row. -/
theorem row_keys_match_schema (schema : List ColumnSpec)
    (hints : List (String × Hint)) (now : Int) (s : RandState)
    (row : List (String × Value)) (w : List String) (s2 : RandState)
    (hnd : (schema.map ColumnSpec.name).Nodup)
    (h : generateRow schema hints now s = .ok (row, w, s2)) :
    row.map Prod.fst = schema.map ColumnSpec.name := by
  have hr := generateRowAux_keys hints now schema [] [] s row w s2 (by simpa using hnd) h
  simpa using hr

/-- Witness for the row-keys theorem on a concrete two-column schema. -/
theorem row_keys_match_schema_witness :
    ([("a", Value.int (-2147483648)), ("b", Value.bool true)] : List (String × Value)).map
      Prod.fst = [ColumnSpec.mk "a" "Int32", ColumnSpec.mk "b" "Bool"].map
        ColumnSpec.name :=
  row_keys_match_schema [⟨"a", "Int32"⟩, ⟨"b", "Bool"⟩] [] 0 ⟨fun _ => 0, 0⟩
    [("a", Value.int (-2147483648)), ("b", Value.bool true)] [] ⟨fun _ => 0, 2⟩
    (by decide) rfl

/-! Claims C8 and C4: the datetime-range hint branch. -/

theorem resolveHint_range (colName colType : String) (start stop : Int)
    (now : Int) (s : RandState) :
    resolveHint colName colType (Hint.rangeDict start stop) now s =
      exBind (randint 0 (stop - start) s) (fun o =>
        .ok ((if colType = "Date" then Value.date ((start + o.1).fdiv 86400)
              else Value.datetime (start + o.1)), [], o.2)) := rfl

/-- C8: for a well-formed datetime-range hint with start ≤ end, every
value generate_row produces for that column comes from a whole-second
timestamp inside the closed window [start, end] — returned directly as a
datetime, or as that timestamp's calendar day when the declared type is
Date. -/
theorem range_hint_within_window (colName colType : String) (start stop : Int)
    (now : Int) (s : RandState) (row : List (String × Value)) (w : List String)
    (s2 : RandState) (hle : start ≤ stop)
    (h : generateRow [⟨colName, colType⟩] [(colName, Hint.rangeDict start stop)] now s =
      .ok (row, w, s2)) :
    ∃ t, start ≤ t ∧ t ≤ stop ∧
      (row = [(colName, Value.datetime t)] ∨
        row = [(colName, Value.date (t.fdiv 86400))]) := by
  have hcv : columnValue [(colName, Hint.rangeDict start stop)] ⟨colName, colType⟩ now s =
      resolveHint colName colType (Hint.rangeDict start stop) now s := by
    unfold columnValue
    rw [List.lookup_cons_self]
  have hstep : generateRow [⟨colName, colType⟩]
      [(colName, Hint.rangeDict start stop)] now s =
      exBind (columnValue [(colName, Hint.rangeDict start stop)] ⟨colName, colType⟩ now s)
        (fun r => generateRowAux [(colName, Hint.rangeDict start stop)] now []
          (dictInsert [] colName r.1) ([] ++ r.2.1) r.2.2) := rfl
  rw [hstep, hcv, resolveHint_range,
    randint_eq 0 (stop - start) s (by omega)] at h
  simp only [exBind_ok, generateRowAux, dictInsert, List.nil_append,
    Except.ok.injEq, Prod.mk.injEq] at h
  obtain ⟨hrow, -, -⟩ := h
  obtain ⟨hb1, hb2, -⟩ := randint_bounds (randint_eq 0 (stop - start) s (by omega))
  refine ⟨start + (0 + ((s.head % (stop - start - 0 + 1).toNat : Nat) : Int)),
    by omega, by omega, ?_⟩
  by_cases hd : colType = "Date"
  · rw [if_pos hd] at hrow
    exact Or.inr hrow.symm
  · rw [if_neg hd] at hrow
    exact Or.inl hrow.symm

/-- Witness for the range-window theorem on a DateTime column over the
spec's one-day window. -/
theorem range_hint_within_window_witness :
    ∃ t, (0 : Int) ≤ t ∧ t ≤ 86400 ∧
      (([("d", Value.datetime 0)] : List (String × Value)) = [("d", Value.datetime t)] ∨
        ([("d", Value.datetime 0)] : List (String × Value)) =
          [("d", Value.date (t.fdiv 86400))]) :=
  range_hint_within_window "d" "DateTime" 0 86400 0 ⟨fun _ => 0, 0⟩
    [("d", Value.datetime 0)] [] ⟨fun _ => 0, 1⟩ (by norm_num) rfl

/-- C4 (amended): for a datetime-range hint the drawn timestamp is coerced
to a calendar date exactly when the full declared type string equals
"Date" — the code compares col_type itself with the literal, not the base
type, so a parametric spelling such as Date(3), whose base type is Date,
is not coerced. -/
theorem range_hint_date_coercion (colName colType : String) (start stop : Int)
    (now : Int) (s : RandState) (v : Value) (w : List String) (s2 : RandState)
    (h : resolveHint colName colType (Hint.rangeDict start stop) now s = .ok (v, w, s2)) :
    (∃ d, v = Value.date d) ↔ colType = "Date" := by
  rw [resolveHint_range] at h
  cases hr : randint 0 (stop - start) s with
  | error e => rw [hr] at h; cases h
  | ok o =>
    rw [hr, exBind_ok] at h
    simp only [Except.ok.injEq, Prod.mk.injEq] at h
    obtain ⟨hv, -, -⟩ := h
    by_cases hd : colType = "Date"
    · rw [if_pos hd] at hv
      exact ⟨fun _ => hd, fun _ => ⟨_, hv.symm⟩⟩
    · rw [if_neg hd] at hv
      constructor
      · rintro ⟨d, hdd⟩
        rw [← hv] at hdd
        cases hdd
      · intro hc
        exact absurd hc hd

/-- Witness for the coercion theorem at the plain type Date. -/
theorem range_hint_date_coercion_witness :
    (∃ d, Value.date 0 = Value.date d) ↔ ("Date" : String) = "Date" :=
  range_hint_date_coercion "d" "Date" 0 0 0 ⟨fun _ => 0, 0⟩ (Value.date 0) []
    ⟨fun _ => 0, 1⟩ rfl

/-- C4 counterexample: Date(3) has base type Date (the text before the
first parenthesis), yet a datetime-range hint on a Date(3) column yields
a datetime, not a calendar date — the code compares the full declared
type string with "Date". -/
theorem date_paren_not_coerced :
    baseType "Date(3)" = "Date" ∧
    rowOf (generateRow [⟨"d", "Date(3)"⟩] [("d", Hint.rangeDict 0 86400)] 0
      ⟨fun _ => 0, 0⟩) = some [("d", Value.datetime 0)] := ⟨rfl, rfl⟩

/-! Claim C5: the type-based Date generator's window. -/

theorem date_offset (now k : Int) :
    (now - 31536000 + k * 86400).fdiv 86400 = now.fdiv 86400 - 365 + k := by
  have h1 : now - 31536000 + k * 86400 = now + (k - 365) * 86400 := by ring
  rw [h1, Int.fdiv_eq_ediv _ (by norm_num), Int.fdiv_eq_ediv _ (by norm_num),
    Int.add_mul_ediv_right _ _ (by norm_num : (86400 : Int) ≠ 0)]
  omega

/-- C5 (amended): the type-based Date generator draws one of the 366 day
offsets 0..365 from start_date = now - 365 days, so the produced calendar
date always lies in the closed interval from 365 days before the current
day up to and including the current day itself, and each of the 366
offsets is attainable for some random state. -/
theorem date_gen_window (colType : String) (hb : baseType colType = "Date") :
    (∀ (now : Int) (s : RandState), ∃ k : Int, 0 ≤ k ∧ k ≤ 365 ∧
        generateByType colType now s =
          .ok (Value.date (now.fdiv 86400 - 365 + k), [], s.advance)) ∧
    (∀ k : Int, 0 ≤ k → k ≤ 365 → ∀ now : Int, ∃ s : RandState,
        generateByType colType now s =
          .ok (Value.date (now.fdiv 86400 - 365 + k), [], s.advance)) := by
  have hg : typeGenerators (baseType colType) = some dateGen := by
    rw [hb]
    rfl
  constructor
  · intro now s
    obtain ⟨hb1, hb2, -⟩ := randint_bounds (randint_eq 0 365 s (by norm_num))
    refine ⟨0 + ((s.head % ((365 : Int) - 0 + 1).toNat : Nat) : Int),
      by omega, by omega, ?_⟩
    rw [generateByType_some hg now s]
    unfold dateGen
    rw [randint_eq 0 365 s (by norm_num)]
    simp only [exBind_ok]
    rw [date_offset]
  · intro k hk0 hk365 now
    refine ⟨⟨fun _ => k.toNat, 0⟩, ?_⟩
    rw [generateByType_some hg now ⟨fun _ => k.toNat, 0⟩]
    unfold dateGen
    rw [randint_eq 0 365 _ (by norm_num)]
    simp only [exBind_ok]
    have hmod : (⟨fun _ => k.toNat, 0⟩ : RandState).head %
        ((365 : Int) - 0 + 1).toNat = k.toNat := by
      show k.toNat % ((365 : Int) - 0 + 1).toNat = k.toNat
      have h366 : ((365 : Int) - 0 + 1).toNat = 366 := rfl
      rw [h366]
      exact Nat.mod_eq_of_lt (by omega)
    rw [hmod, date_offset]
    have he : (0 : Int) + ((k.toNat : Nat) : Int) = k := by omega
    rw [he]

/-- Witness for the Date-window theorem at the zero clock and zero tape. -/
theorem date_gen_window_witness :
    ∃ k : Int, 0 ≤ k ∧ k ≤ 365 ∧
      generateByType "Date" 0 ⟨fun _ => 0, 0⟩ =
        .ok (Value.date ((0 : Int).fdiv 86400 - 365 + k), [],
          (⟨fun _ => 0, 0⟩ : RandState).advance) :=
  (date_gen_window "Date" rfl).1 0 ⟨fun _ => 0, 0⟩

/-- C5 counterexample: with wall clock 0 and a tape drawing offset 365,
the unhinted Date column produces Value.date (Int.fdiv 0 86400), i.e. the
current day itself, so not every output precedes the current day's
moment, and the attainable day offsets 0..365 number 366, not 365. -/
theorem date_gen_today_reachable :
    rowOf (generateRow [⟨"d", "Date"⟩] [] 0 ⟨fun _ => 365, 0⟩) =
      some [("d", Value.date (Int.fdiv 0 86400))] := rfl

/-! Claim C9: parametric type stripping. -/

/-- Value-and-state projection of a generation outcome: what C9 calls the
result "as a function of the random state", ignoring warning text. -/
def valueAndState (r : Except String (Value × List String × RandState)) :
    Except String (Value × RandState) :=
  match r with
  | .error e => .error e
  | .ok p => .ok (p.1, p.2.2)

theorem baseType_idem (t : String) : baseType (baseType t) = baseType t := by
  show (⟨(t.data.takeWhile (fun c => c != '(')).takeWhile (fun c => c != '(')⟩ : String) =
    ⟨t.data.takeWhile (fun c => c != '(')⟩
  rw [List.takeWhile_idem]

/-- C9 (amended): _generate_by_type strips everything from the first '('
and dispatches on the remaining prefix, so as a function of the random
state (warning text aside) generation for any type string is identical to
generation for its base type.  But the base type of LowCardinality(String)
is LowCardinality — an unregistered name — so such a column yields NULL
with a warning instead of invoking the String generator (see the
counterexample). -/
theorem byType_strips_to_base (t : String) (now : Int) (s : RandState) :
    valueAndState (generateByType t now s) =
      valueAndState (generateByType (baseType t) now s) := by
  cases hg : typeGenerators (baseType t) with
  | none =>
    have hg2 : typeGenerators (baseType (baseType t)) = none := by
      rw [baseType_idem]
      exact hg
    rw [generateByType_none hg now s, generateByType_none hg2 now s]
    rfl
  | some g =>
    have hg2 : typeGenerators (baseType (baseType t)) = some g := by
      rw [baseType_idem]
      exact hg
    rw [generateByType_some hg now s, generateByType_some hg2 now s]

/-- C9 counterexample: split('(')[0] of LowCardinality(String) is
LowCardinality, which has no registered generator, so that column yields
NULL plus an unknown-type warning, while a plain String column at the
same random state produces the string "aaaaa" — the two do not share the
string generator. -/
theorem lowcardinality_not_string :
    baseType "LowCardinality(String)" = "LowCardinality" ∧
    generateByType "LowCardinality(String)" 0 ⟨fun _ => 0, 0⟩ =
      .ok (Value.null, [unknownTypeWarning "LowCardinality(String)"], ⟨fun _ => 0, 0⟩) ∧
    generateByType "String" 0 ⟨fun _ => 0, 0⟩ =
      .ok (Value.str "aaaaa", [], ⟨fun _ => 0, 6⟩) := ⟨rfl, rfl, rfl⟩

/-! Claim C3: determinism and the wall clock. -/

theorem typeGen_nowFree (b : String) (hb : b ∉ dateLikeTypes)
    (g : Int → RandState → Except String (Value × RandState))
    (hg : typeGenerators b = some g) (n1 n2 : Int) (s : RandState) :
    g n1 s = g n2 s := by
  have hm : (b, g) ∈ typeGeneratorsList := lookup_pair_mem hg
  simp only [typeGeneratorsList, Prod.mk.injEq, List.mem_cons,
    List.not_mem_nil, or_false] at hm
  obtain hm | hm | hm | hm | hm | hm | hm | hm | hm | hm | hm | hm | hm | hm | hm := hm
  · obtain ⟨-, rfl⟩ := hm; rfl
  · obtain ⟨-, rfl⟩ := hm; rfl
  · obtain ⟨-, rfl⟩ := hm; rfl
  · obtain ⟨-, rfl⟩ := hm; rfl
  · obtain ⟨-, rfl⟩ := hm; rfl
  · obtain ⟨-, rfl⟩ := hm; rfl
  · obtain ⟨-, rfl⟩ := hm; rfl
  · obtain ⟨-, rfl⟩ := hm; rfl
  · obtain ⟨-, rfl⟩ := hm; rfl
  · obtain ⟨-, rfl⟩ := hm; rfl
  · obtain ⟨-, rfl⟩ := hm; rfl
  · obtain ⟨hb2, rfl⟩ := hm
    subst hb2
    exact absurd (by decide) hb
  · obtain ⟨hb2, rfl⟩ := hm
    subst hb2
    exact absurd (by decide) hb
  · obtain ⟨hb2, rfl⟩ := hm
    subst hb2
    exact absurd (by decide) hb
  · obtain ⟨-, rfl⟩ := hm; rfl

theorem byType_nowFree (t : String) (hd : baseType t ∉ dateLikeTypes)
    (n1 n2 : Int) (s : RandState) :
    generateByType t n1 s = generateByType t n2 s := by
  cases hg : typeGenerators (baseType t) with
  | none => rw [generateByType_none hg n1 s, generateByType_none hg n2 s]
  | some g =>
    rw [generateByType_some hg n1 s, generateByType_some hg n2 s,
      typeGen_nowFree (baseType t) hd g hg n1 n2 s]

theorem resolveHint_nowFree (colName colType : String) (hint : Hint)
    (hd : baseType colType ∉ dateLikeTypes) (n1 n2 : Int) (s : RandState) :
    resolveHint colName colType hint n1 s = resolveHint colName colType hint n2 s := by
  cases hint with
  | list l => rfl
  | rangeDict a b => rfl
  | dictOther =>
    show exBind (generateByType colType n1 s) _ = exBind (generateByType colType n2 s) _
    rw [byType_nowFree colType hd n1 n2 s]
  | scalar v =>
    show exBind (generateByType colType n1 s) _ = exBind (generateByType colType n2 s) _
    rw [byType_nowFree colType hd n1 n2 s]

theorem columnValue_nowFree (hints : List (String × Hint)) (col : ColumnSpec)
    (hd : baseType col.type ∉ dateLikeTypes) (n1 n2 : Int) (s : RandState) :
    columnValue hints col n1 s = columnValue hints col n2 s := by
  unfold columnValue
  cases hl : hints.lookup col.name with
  | none => exact byType_nowFree col.type hd n1 n2 s
  | some hint => exact resolveHint_nowFree col.name col.type hint hd n1 n2 s

theorem generateRowAux_nowFree (hints : List (String × Hint)) (n1 n2 : Int) :
    ∀ (schema : List ColumnSpec),
      (∀ col ∈ schema, baseType col.type ∉ dateLikeTypes) →
      ∀ (acc : List (String × Value)) (warns : List String) (s : RandState),
      generateRowAux hints n1 schema acc warns s = generateRowAux hints n2 schema acc warns s
  | [], _, acc, warns, s => rfl
  | col :: rest, hd, acc, warns, s => by
    have hcol : baseType col.type ∉ dateLikeTypes := hd col (List.mem_cons_self _ _)
    have hrest : ∀ c ∈ rest, baseType c.type ∉ dateLikeTypes :=
      fun c hc => hd c (List.mem_cons_of_mem _ hc)
    show exBind (columnValue hints col n1 s) _ = exBind (columnValue hints col n2 s) _
    rw [columnValue_nowFree hints col hcol n1 n2 s]
    cases hcv : columnValue hints col n2 s with
    | error e => rfl
    | ok r =>
      show generateRowAux hints n1 rest _ _ _ = generateRowAux hints n2 rest _ _ _
      exact generateRowAux_nowFree hints n1 n2 rest hrest _ _ _

theorem generateRow_nowFree (schema : List ColumnSpec) (hints : List (String × Hint))
    (hd : ∀ col ∈ schema, baseType col.type ∉ dateLikeTypes) (n1 n2 : Int)
    (s : RandState) :
    generateRow schema hints n1 s = generateRow schema hints n2 s :=
  generateRowAux_nowFree hints n1 n2 schema hd [] [] s

theorem generateRows_nowFree (schema : List ColumnSpec) (hints : List (String × Hint))
    (hd : ∀ col ∈ schema, baseType col.type ∉ dateLikeTypes) :
    ∀ (n : Nat) (nows1 nows2 : Nat → Int) (s : RandState),
      generateRows schema hints nows1 n s = generateRows schema hints nows2 n s
  | 0, nows1, nows2, s => rfl
  | n + 1, nows1, nows2, s => by
    show exBind (generateRow schema hints (nows1 0) s) _ =
      exBind (generateRow schema hints (nows2 0) s) _
    rw [generateRow_nowFree schema hints hd (nows1 0) (nows2 0) s]
    cases hr : generateRow schema hints (nows2 0) s with
    | error e => rfl
    | ok r =>
      show exBind (generateRows schema hints (fun i => nows1 (i + 1)) n r.2.2) _ =
        exBind (generateRows schema hints (fun i => nows2 (i + 1)) n r.2.2) _
      rw [generateRows_nowFree schema hints hd n (fun i => nows1 (i + 1))
        (fun i => nows2 (i + 1)) r.2.2]

/-- C3 (amended): the output sequence is a function of (schema, hints,
seed) and of the wall-clock times observed at each call; the clock plays
no role whenever no column's base type is Date, DateTime or DateTime64,
and then two runs with identical (schema, hints, seed) produce identical
sequences regardless of when they execute.  Unhinted Date/DateTime
columns do read datetime.now(), so for them cross-run determinism fails
(see the counterexample). -/
theorem sequences_clock_free (schema : List ColumnSpec) (hints : List (String × Hint))
    (hd : ∀ col ∈ schema, baseType col.type ∉ dateLikeTypes)
    (nows1 nows2 : Nat → Int) (n : Nat) (s : RandState) :
    generateRows schema hints nows1 n s = generateRows schema hints nows2 n s :=
  generateRows_nowFree schema hints hd n nows1 nows2 s

/-- Witness for the clock-free sequence theorem on a date-free schema. -/
theorem sequences_clock_free_witness :
    generateRows [⟨"a", "Int32"⟩] [] (fun _ => 0) 2 ⟨fun _ => 0, 0⟩ =
      generateRows [⟨"a", "Int32"⟩] [] (fun _ => 99999) 2 ⟨fun _ => 0, 0⟩ :=
  sequences_clock_free [⟨"a", "Int32"⟩] [] (by decide) (fun _ => 0) (fun _ => 99999)
    2 ⟨fun _ => 0, 0⟩

/-- C3 counterexample: identical (schema, hints, seed) queried at two
different wall-clock instants yield different rows — the unhinted Date
column reads datetime.now(), ambient state outside (schema, hints,
seed). -/
theorem date_column_clock_dependent :
    rowOf (generateRow [⟨"d", "Date"⟩] [] 0 ⟨fun _ => 0, 0⟩) ≠
      rowOf (generateRow [⟨"d", "Date"⟩] [] 86400 ⟨fun _ => 0, 0⟩) := by
  have h1 : rowOf (generateRow [⟨"d", "Date"⟩] [] 0 ⟨fun _ => 0, 0⟩) =
      some [("d", Value.date (-365))] := rfl
  have h2 : rowOf (generateRow [⟨"d", "Date"⟩] [] 86400 ⟨fun _ => 0, 0⟩) =
      some [("d", Value.date (-364))] := rfl
  rw [h1, h2]
  decide
